import Mathlib

set_option maxHeartbeats 1000000
set_option maxRecDepth 10000
set_option linter.unusedVariables false

/-!
Verification of the algo-builder stateless authorization predicates
(`examples/dao/assets/deposit-lsig.py` and
`examples/ref-templates/assets/dynamic-fee.py`).

The PyTeal source builds immutable boolean expression trees over the fields
of a transaction group; the external engine evaluates such a tree once per
candidate group and accepts iff the result is a nonzero integer (any runtime
error, such as an unmatched `Cond` or an out-of-range group index, rejects).
We embed the expression language shallowly: `Expr` mirrors the PyTeal
constructors used by the two sources, `eval` gives the evaluation
semantics of the spec (left-to-right, pure boolean connectives, fail-closed `Cond`),
and the two programs are translated node by node from the Python sources.
-/

namespace AlgoBuilder

/-- Byte strings (addresses, application arguments, leases) as byte lists. -/
abbrev Bytes := List Nat

/-- The canonical 32-byte zero address returned by `Global.zero_address()`. -/
def zeroAddr : Bytes := List.replicate 32 0

/-- Transaction record: the fields of §3 of the spec that the two sources read. -/
structure Transaction where
  type_enum : Nat
  sender : Bytes
  receiver : Bytes
  amount : Nat
  fee : Nat
  first_valid : Nat
  last_valid : Nat
  lease : Bytes
  close_remainder_to : Bytes
  rekey_to : Bytes
  asset_close_to : Bytes
  xfer_asset : Nat
  asset_amount : Nat
  application_id : Nat
  application_args : List Bytes
  deriving DecidableEq

/-- A transaction group plus the index `cur` of the transaction currently
being authorized (the one `Txn` refers to; `Txn.group_index()` returns it). -/
structure TransactionGroup where
  txns : List Transaction
  cur : Nat
  deriving DecidableEq

/-- Runtime values of the expression language: uint64 or byte string. -/
inductive Val where
  | int (n : Nat)
  | bytes (b : Bytes)
  deriving DecidableEq

/-- Evaluation errors; any error rejects the group (fail-closed). -/
inductive Err where
  | badIndex
  | badArgIndex
  | badCurrent
  | badType
  | noMatch
  deriving DecidableEq

/-- The transaction fields read by the two sources. -/
inductive TxnField where
  | typeEnum | sender | receiver | amount | fee | firstValid | lastValid | lease
  | closeRemainderTo | rekeyTo | assetCloseTo | xferAsset | assetAmount
  | applicationID
  deriving DecidableEq

/-- Value of a field of a transaction. -/
def fieldVal : TxnField → Transaction → Val
  | .typeEnum, t => .int t.type_enum
  | .sender, t => .bytes t.sender
  | .receiver, t => .bytes t.receiver
  | .amount, t => .int t.amount
  | .fee, t => .int t.fee
  | .firstValid, t => .int t.first_valid
  | .lastValid, t => .int t.last_valid
  | .lease, t => .bytes t.lease
  | .closeRemainderTo, t => .bytes t.close_remainder_to
  | .rekeyTo, t => .bytes t.rekey_to
  | .assetCloseTo, t => .bytes t.asset_close_to
  | .xferAsset, t => .int t.xfer_asset
  | .assetAmount, t => .int t.asset_amount
  | .applicationID, t => .int t.application_id

mutual
/-- Expression trees: the PyTeal constructors used by the two sources.
`txn f` is `Txn.f()`, `gtxn i f` is `Gtxn[i].f()`, `gtxnArg i j` is
`Gtxn[i].application_args[j]`, `groupSize` is `Global.group_size()`,
`groupIndex` is `Txn.group_index()`, `cond` is `Cond` over branch pairs. -/
inductive Expr where
  | int (n : Nat)
  | bytes (b : Bytes)
  | zeroAddress
  | groupSize
  | groupIndex
  | txn (f : TxnField)
  | gtxn (i : Nat) (f : TxnField)
  | gtxnArg (i j : Nat)
  | eq (a b : Expr)
  | le (a b : Expr)
  | and (a b : Expr)
  | or (a b : Expr)
  | cond (bs : Branches)

/-- The ordered (discriminant, body) pairs of a `Cond`. -/
inductive Branches where
  | nil
  | cons (d b : Expr) (rest : Branches)
end

/-- Semantics of `==`: both operands must have the same kind; returns 1 or 0. -/
def eqSem : Except Err Val → Except Err Val → Except Err Val
  | .error e, _ => .error e
  | .ok _, .error e => .error e
  | .ok (.int a), .ok (.int b) => .ok (.int (if a = b then 1 else 0))
  | .ok (.bytes a), .ok (.bytes b) => .ok (.int (if a = b then 1 else 0))
  | .ok _, .ok _ => .error .badType

/-- Semantics of `<=`: integer operands only; unbounded comparison. -/
def leSem : Except Err Val → Except Err Val → Except Err Val
  | .error e, _ => .error e
  | .ok _, .error e => .error e
  | .ok (.int a), .ok (.int b) => .ok (.int (if a ≤ b then 1 else 0))
  | .ok _, .ok _ => .error .badType

/-- Semantics of `And`: pure boolean conjunction, evaluated left to right;
a false left operand decides the result without consulting the right one. -/
def andSem : Except Err Val → Except Err Val → Except Err Val
  | .error e, _ => .error e
  | .ok (.bytes _), _ => .error .badType
  | .ok (.int 0), _ => .ok (.int 0)
  | .ok (.int (_+1)), .error e => .error e
  | .ok (.int (_+1)), .ok (.bytes _) => .error .badType
  | .ok (.int (_+1)), .ok (.int 0) => .ok (.int 0)
  | .ok (.int (_+1)), .ok (.int (_+1)) => .ok (.int 1)

/-- Semantics of `Or`: pure boolean disjunction, evaluated left to right;
a true left operand decides the result without consulting the right one. -/
def orSem : Except Err Val → Except Err Val → Except Err Val
  | .error e, _ => .error e
  | .ok (.bytes _), _ => .error .badType
  | .ok (.int (_+1)), _ => .ok (.int 1)
  | .ok (.int 0), .error e => .error e
  | .ok (.int 0), .ok (.bytes _) => .error .badType
  | .ok (.int 0), .ok (.int 0) => .ok (.int 0)
  | .ok (.int 0), .ok (.int (_+1)) => .ok (.int 1)

mutual
/-- Evaluate an expression against a transaction group. -/
def eval (g : TransactionGroup) : Expr → Except Err Val
  | .int n => .ok (.int n)
  | .bytes b => .ok (.bytes b)
  | .zeroAddress => .ok (.bytes zeroAddr)
  | .groupSize => .ok (.int g.txns.length)
  | .groupIndex => .ok (.int g.cur)
  | .txn f =>
    match g.txns[g.cur]? with
    | some t => .ok (fieldVal f t)
    | none => .error .badCurrent
  | .gtxn i f =>
    match g.txns[i]? with
    | some t => .ok (fieldVal f t)
    | none => .error .badIndex
  | .gtxnArg i j =>
    match g.txns[i]? with
    | some t =>
      match t.application_args[j]? with
      | some a => .ok (.bytes a)
      | none => .error .badArgIndex
    | none => .error .badIndex
  | .eq a b => eqSem (eval g a) (eval g b)
  | .le a b => leSem (eval g a) (eval g b)
  | .and a b => andSem (eval g a) (eval g b)
  | .or a b => orSem (eval g a) (eval g b)
  | .cond bs => evalCond g bs

/-- Evaluate a `Cond`: first branch whose discriminant is a nonzero integer
supplies the result; exhausting the branches is an error (rejection). -/
def evalCond (g : TransactionGroup) : Branches → Except Err Val
  | .nil => .error .noMatch
  | .cons d b rest =>
    match eval g d with
    | .error e => .error e
    | .ok (.bytes _) => .error .badType
    | .ok (.int 0) => evalCond g rest
    | .ok (.int (_+1)) => eval g b
end

/-- A result is truthy iff it is a nonzero integer. -/
def isTruthy : Except Err Val → Bool
  | .ok (.int n) => decide (n ≠ 0)
  | _ => false

/-- The engine accepts a group iff the program evaluates to a nonzero integer. -/
def accepts (e : Expr) (g : TransactionGroup) : Bool := isTruthy (eval g e)

/-- Left-associated n-ary `And`, as PyTeal folds `And(x, xs...)`. -/
def AndN (x : Expr) (xs : List Expr) : Expr := xs.foldl Expr.and x

/-- Left-associated n-ary `Or`, as PyTeal folds `Or(x, xs...)`. -/
def OrN (x : Expr) (xs : List Expr) : Expr := xs.foldl Expr.or x

/-- `TxnType.Payment` on-chain enum value. -/
def TxnTypePayment : Nat := 1

/-- `TxnType.AssetTransfer` on-chain enum value. -/
def TxnTypeAssetTransfer : Nat := 4

/-- `TxnType.ApplicationCall` on-chain enum value. -/
def TxnTypeApplicationCall : Nat := 6

/-- A reference to either the current transaction (`Txn`) or `Gtxn[i]`,
so that `basic_checks` can be applied to both as in the Python source. -/
inductive TxnRef where
  | current
  | idx (i : Nat)

/-- Field read through a transaction reference. -/
def fieldE : TxnRef → TxnField → Expr
  | .current, f => .txn f
  | .idx i, f => .gtxn i f

/-- ASCII bytes of a string literal, mirroring the Bytes constructor. -/
def str2bytes (s : String) : Bytes := s.toList.map Char.toNat

/-- `deposit_lsig.basic_checks`: no rekeying, close-remainder-to or
asset-close-to for the referenced transaction. -/
def basic_checks (r : TxnRef) : Expr :=
  AndN (.eq (fieldE r .rekeyTo) .zeroAddress)
    [.eq (fieldE r .closeRemainderTo) .zeroAddress,
     .eq (fieldE r .assetCloseTo) .zeroAddress]

/-- `deposit_lsig.opt_in`: accept only a zero-amount transfer of the
governance token. -/
def opt_in (ARG_GOV_TOKEN : Nat) : Expr :=
  AndN (basic_checks .current)
    [.eq (.txn .typeEnum) (.int TxnTypeAssetTransfer),
     .eq (.txn .assetAmount) (.int 0),
     .eq (.txn .xferAsset) (.int ARG_GOV_TOKEN)]

/-- `deposit_lsig.deposit_or_withdraw`: size-2 branch pairing a DAO
application call with a governance-token transfer. -/
def deposit_or_withdraw (ARG_GOV_TOKEN ARG_DAO_APP_ID : Nat) : Expr :=
  AndN (.eq .groupSize (.int 2))
    [basic_checks (.idx 0),
     .eq (.gtxn 0 .typeEnum) (.int TxnTypeApplicationCall),
     .eq (.gtxn 0 .applicationID) (.int ARG_DAO_APP_ID),
     OrN (.eq (.gtxnArg 0 0) (.bytes (str2bytes "add_proposal")))
       [.eq (.gtxnArg 0 0) (.bytes (str2bytes "deposit_vote_token")),
        .eq (.gtxnArg 0 0) (.bytes (str2bytes "withdraw_vote_deposit")),
        .eq (.gtxnArg 0 0) (.bytes (str2bytes "clear_proposal"))],
     .eq .groupIndex (.int 1),
     basic_checks (.idx 1),
     .eq (.gtxn 1 .typeEnum) (.int TxnTypeAssetTransfer),
     .eq (.gtxn 1 .xferAsset) (.int ARG_GOV_TOKEN)]

/-- `deposit_lsig.program`: `Cond` dispatching on the group size. -/
def deposit_lsig (ARG_GOV_TOKEN ARG_DAO_APP_ID : Nat) : Expr :=
  .cond (.cons (.eq .groupSize (.int 1)) (opt_in ARG_GOV_TOKEN)
    (.cons (.eq .groupSize (.int 2))
      (deposit_or_withdraw ARG_GOV_TOKEN ARG_DAO_APP_ID)
      .nil))

/-- `dynamic_fee.grp_check`: the group has exactly two transactions. -/
def grp_check : Expr := .eq .groupSize (.int 2)

/-- `dynamic_fee.firstTxn_pay_check`. -/
def firstTxn_pay_check : Expr := .eq (.gtxn 0 .typeEnum) (.int TxnTypePayment)

/-- `dynamic_fee.address_check`. -/
def address_check : Expr := .eq (.gtxn 0 .receiver) (.gtxn 1 .sender)

/-- `dynamic_fee.amount_check`. -/
def amount_check : Expr := .eq (.gtxn 0 .amount) (.gtxn 1 .fee)

/-- `dynamic_fee.secondTxn_pay_check`. -/
def secondTxn_pay_check : Expr := .eq (.gtxn 1 .typeEnum) (.int TxnTypePayment)

/-- `dynamic_fee.common_fields`: no rekeying of, and a hard 10000 fee cap
on, the transaction currently being authorized. -/
def common_fields : Expr :=
  AndN (.eq (.txn .rekeyTo) .zeroAddress) [.le (.txn .fee) (.int 10000)]

/-- `dynamic_fee.required_condition`. -/
def required_condition : Expr :=
  AndN grp_check
    [firstTxn_pay_check, address_check, amount_check, secondTxn_pay_check]

/-- `dynamic_fee.recv_field_check`: receiver is the `TMPL_TO` address. -/
def recv_field_check (TMPL_TO : Bytes) : Expr :=
  .eq (.gtxn 1 .receiver) (.bytes TMPL_TO)

/-- `dynamic_fee.cls_field_check`. -/
def cls_field_check (ARG_CLS : Bytes) : Expr :=
  .eq (.gtxn 1 .closeRemainderTo) (.bytes ARG_CLS)

/-- `dynamic_fee.amount_field_check`. -/
def amount_field_check (ARG_AMT : Nat) : Expr :=
  .eq (.gtxn 1 .amount) (.int ARG_AMT)

/-- `dynamic_fee.fv_field_check` (defined in the source, but commented out
of `params_condition`). -/
def fv_field_check (ARG_FV : Nat) : Expr :=
  .eq (.gtxn 1 .firstValid) (.int ARG_FV)

/-- `dynamic_fee.lv_field_check` (defined in the source, but commented out
of `params_condition`). -/
def lv_field_check (ARG_LV : Nat) : Expr :=
  .eq (.gtxn 1 .lastValid) (.int ARG_LV)

/-- `dynamic_fee.lease_field_check` (defined in the source, but commented
out of `params_condition`). -/
def lease_field_check (ARG_LEASE : Bytes) : Expr :=
  .eq (.gtxn 1 .lease) (.bytes ARG_LEASE)

/-- `dynamic_fee.params_condition`: the source includes only the common
fields and the receiver/close-to/amount checks; the first-valid, last-valid
and lease checks are commented out there. -/
def params_condition (ARG_AMT : Nat) (ARG_CLS TMPL_TO : Bytes) : Expr :=
  AndN common_fields
    [recv_field_check TMPL_TO, cls_field_check ARG_CLS,
     amount_field_check ARG_AMT]

/-- `dynamic_fee`: the returned program expression. The unused round and
lease parameters are kept to mirror the source signature. -/
def dynamic_fee (ARG_AMT : Nat) (ARG_CLS : Bytes) (ARG_FV ARG_LV : Nat)
    (ARG_LEASE : Bytes) (TMPL_TO : Bytes) : Expr :=
  .and required_condition (params_condition ARG_AMT ARG_CLS TMPL_TO)

/-! Basic evaluation lemmas. -/

theorem isTruthy_error (e : Err) : isTruthy (.error e) = false := rfl

theorem isTruthy_bytes (b : Bytes) : isTruthy (.ok (.bytes b)) = false := rfl

theorem isTruthy_ite (c : Prop) [Decidable c] :
    isTruthy (.ok (.int (if c then 1 else 0))) = decide c := by
  by_cases h : c <;> simp [h, isTruthy]

theorem isTruthy_andSem (p q : Except Err Val) :
    isTruthy (andSem p q) = (isTruthy p && isTruthy q) := by
  rcases p with e | v
  · simp [andSem, isTruthy]
  · rcases v with n | b
    · rcases n with _ | n
      · simp [andSem, isTruthy]
      · rcases q with e | v
        · simp [andSem, isTruthy]
        · rcases v with m | b
          · rcases m with _ | m <;> simp [andSem, isTruthy]
          · simp [andSem, isTruthy]
    · simp [andSem, isTruthy]

theorem accepts_and (a b : Expr) (g : TransactionGroup) :
    accepts (.and a b) g = (accepts a g && accepts b g) := by
  simp [accepts, eval, isTruthy_andSem]

theorem accepts_AndN (x : Expr) (xs : List Expr) (g : TransactionGroup) :
    accepts (AndN x xs) g = (accepts x g && xs.all fun e => accepts e g) := by
  induction xs generalizing x with
  | nil => simp [AndN]
  | cons y ys ih =>
    have h : AndN x (y :: ys) = AndN (Expr.and x y) ys := rfl
    rw [h, ih, accepts_and, List.all_cons, Bool.and_assoc]

theorem accepts_eq_groupSize (n : Nat) (g : TransactionGroup) :
    accepts (.eq .groupSize (.int n)) g = decide (g.txns.length = n) := by
  simp [accepts, eval, eqSem, isTruthy_ite]

theorem accepts_eq_groupIndex (n : Nat) (g : TransactionGroup) :
    accepts (.eq .groupIndex (.int n)) g = decide (g.cur = n) := by
  simp [accepts, eval, eqSem, isTruthy_ite]

/-! Guardedness of indexed reads: the §4.3 ordering rule says every
`Gtxn[i]` read must be preceded, in left-to-right evaluation order, by an
assertion that the group size exceeds `i`. `guardOK` checks this
syntactically, threading the exact group size known at each point;
`guard_sound` shows a checked expression never evaluates an out-of-range
group index. -/

def mergeK : Option Nat → Option Nat → Option Nat
  | k, none => k
  | _, some n => some n

/-- Recognize the size assertion `Global.group_size() == Int(n)`. -/
def sizeAssert : Expr → Expr → Option Nat
  | .groupSize, .int n => some n
  | _, _ => none

/-- The exact group size known to hold whenever the expression is truthy. -/
def learn : Expr → Option Nat
  | .eq a b => sizeAssert a b
  | .and a b => mergeK (learn a) (learn b)
  | _ => none

mutual
/-- Check that every indexed read is dominated by a size assertion that
covers its index; `k` is the exact group size asserted so far, if any. -/
def guardOK : Expr → Option Nat → Bool
  | .int _, _ => true
  | .bytes _, _ => true
  | .zeroAddress, _ => true
  | .groupSize, _ => true
  | .groupIndex, _ => true
  | .txn _, _ => true
  | .gtxn i _, k => match k with | some n => decide (i < n) | none => false
  | .gtxnArg i _, k => match k with | some n => decide (i < n) | none => false
  | .eq a b, k => guardOK a k && guardOK b k
  | .le a b, k => guardOK a k && guardOK b k
  | .and a b, k => guardOK a k && guardOK b (mergeK k (learn a))
  | .or a b, k => guardOK a k && guardOK b k
  | .cond bs, k => guardBr bs k

/-- Guardedness of `Cond` branches: each body is checked under the size
knowledge established by its own discriminant. -/
def guardBr : Branches → Option Nat → Bool
  | .nil, _ => true
  | .cons d b rest, k =>
    (guardOK d k && guardOK b (mergeK k (learn d))) && guardBr rest k
end

/-- The knowledge `k` is valid for the group `g`. -/
def sizeOK (k : Option Nat) (g : TransactionGroup) : Prop :=
  ∀ n, k = some n → g.txns.length = n

theorem sizeOK_none (g : TransactionGroup) : sizeOK none g := by
  intro n h
  simp at h

theorem sizeAssert_sound (x y : Expr) (g : TransactionGroup) (n : Nat)
    (h : sizeAssert x y = some n)
    (ht : isTruthy (eval g (.eq x y)) = true) : g.txns.length = n := by
  cases x <;> cases y <;> simp_all [sizeAssert, eval, eqSem, isTruthy_ite]

theorem learn_sound : ∀ (a : Expr) (g : TransactionGroup) (n : Nat),
    learn a = some n → isTruthy (eval g a) = true → g.txns.length = n
  | .eq x y, g, n, h, ht =>
    sizeAssert_sound x y g n (by simpa [learn] using h) ht
  | .and x y, g, n, h, ht => by
    have hxy : isTruthy (eval g x) = true ∧ isTruthy (eval g y) = true := by
      have := ht
      rw [show eval g (.and x y) = andSem (eval g x) (eval g y) from by
        simp [eval]] at this
      rw [isTruthy_andSem] at this
      simpa [Bool.and_eq_true] using this
    rw [show learn (.and x y) = mergeK (learn x) (learn y) from rfl] at h
    cases hl : learn y with
    | some m =>
      rw [hl] at h
      have hnm : m = n := by simpa [mergeK] using h
      exact hnm ▸ learn_sound y g m hl hxy.2
    | none =>
      rw [hl] at h
      exact learn_sound x g n (by simpa [mergeK] using h) hxy.1
  | .int _, g, n, h, _ => by simp [learn] at h
  | .bytes _, g, n, h, _ => by simp [learn] at h
  | .zeroAddress, g, n, h, _ => by simp [learn] at h
  | .groupSize, g, n, h, _ => by simp [learn] at h
  | .groupIndex, g, n, h, _ => by simp [learn] at h
  | .txn _, g, n, h, _ => by simp [learn] at h
  | .gtxn _ _, g, n, h, _ => by simp [learn] at h
  | .gtxnArg _ _, g, n, h, _ => by simp [learn] at h
  | .le _ _, g, n, h, _ => by simp [learn] at h
  | .or _ _, g, n, h, _ => by simp [learn] at h
  | .cond _, g, n, h, _ => by simp [learn] at h

theorem sizeOK_merge (k : Option Nat) (a : Expr) (g : TransactionGroup)
    (hk : sizeOK k g) (ht : isTruthy (eval g a) = true) :
    sizeOK (mergeK k (learn a)) g := by
  intro n hn
  cases hl : learn a with
  | none =>
    rw [hl] at hn
    exact hk n (by simpa [mergeK] using hn)
  | some m =>
    rw [hl] at hn
    have hmn : m = n := by simpa [mergeK] using hn
    exact hmn ▸ learn_sound a g m hl ht

theorem eqSem_ne_badIndex (p q : Except Err Val)
    (hp : p ≠ .error .badIndex) (hq : q ≠ .error .badIndex) :
    eqSem p q ≠ .error .badIndex := by
  rcases p with e | v
  · simpa [eqSem] using hp
  · rcases q with e | w
    · simpa [eqSem] using hq
    · rcases v with a | a <;> rcases w with b | b <;> simp [eqSem]

theorem leSem_ne_badIndex (p q : Except Err Val)
    (hp : p ≠ .error .badIndex) (hq : q ≠ .error .badIndex) :
    leSem p q ≠ .error .badIndex := by
  rcases p with e | v
  · simpa [leSem] using hp
  · rcases q with e | w
    · simpa [leSem] using hq
    · rcases v with a | a <;> rcases w with b | b <;> simp [leSem]

theorem orSem_ne_badIndex (p q : Except Err Val)
    (hp : p ≠ .error .badIndex) (hq : q ≠ .error .badIndex) :
    orSem p q ≠ .error .badIndex := by
  rcases p with e | v
  · simpa [orSem] using hp
  · rcases v with n | b
    · rcases n with _ | n
      · rcases q with e | w
        · simpa [orSem] using hq
        · rcases w with m | b
          · rcases m with _ | m <;> simp [orSem]
          · simp [orSem]
      · simp [orSem]
    · simp [orSem]

theorem andSem_ne_badIndex (p q : Except Err Val)
    (hp : p ≠ .error .badIndex)
    (hq : isTruthy p = true → q ≠ .error .badIndex) :
    andSem p q ≠ .error .badIndex := by
  rcases p with e | v
  · simpa [andSem] using hp
  · rcases v with n | b
    · rcases n with _ | n
      · simp [andSem]
      · have hq' := hq (by simp [isTruthy])
        rcases q with e | w
        · simpa [andSem] using hq'
        · rcases w with m | b
          · rcases m with _ | m <;> simp [andSem]
          · simp [andSem]
    · simp [andSem]

mutual
theorem guard_sound : ∀ (e : Expr) (k : Option Nat) (g : TransactionGroup),
    guardOK e k = true → sizeOK k g → eval g e ≠ .error .badIndex
  | .int _, _, g, _, _ => by simp [eval]
  | .bytes _, _, g, _, _ => by simp [eval]
  | .zeroAddress, _, g, _, _ => by simp [eval]
  | .groupSize, _, g, _, _ => by simp [eval]
  | .groupIndex, _, g, _, _ => by simp [eval]
  | .txn f, _, g, _, _ => by
    simp only [eval]
    cases g.txns[g.cur]? <;> simp
  | .gtxn i f, k, g, hg, hk => by
    cases k with
    | none => simp [guardOK] at hg
    | some n =>
      have hin : i < n := by simpa [guardOK] using hg
      have hlen : i < g.txns.length := by rw [hk n rfl]; exact hin
      have hget : g.txns[i]? = some (g.txns[i]) :=
        List.getElem?_eq_getElem hlen
      simp [eval, hget]
  | .gtxnArg i j, k, g, hg, hk => by
    cases k with
    | none => simp [guardOK] at hg
    | some n =>
      have hin : i < n := by simpa [guardOK] using hg
      have hlen : i < g.txns.length := by rw [hk n rfl]; exact hin
      have hget : g.txns[i]? = some (g.txns[i]) :=
        List.getElem?_eq_getElem hlen
      simp only [eval, hget]
      cases (g.txns[i]).application_args[j]? <;> simp
  | .eq a b, k, g, hg, hk => by
    have h12 : guardOK a k = true ∧ guardOK b k = true := by
      simpa [guardOK, Bool.and_eq_true] using hg
    rw [show eval g (.eq a b) = eqSem (eval g a) (eval g b) from by simp [eval]]
    exact eqSem_ne_badIndex _ _ (guard_sound a k g h12.1 hk)
      (guard_sound b k g h12.2 hk)
  | .le a b, k, g, hg, hk => by
    have h12 : guardOK a k = true ∧ guardOK b k = true := by
      simpa [guardOK, Bool.and_eq_true] using hg
    rw [show eval g (.le a b) = leSem (eval g a) (eval g b) from by simp [eval]]
    exact leSem_ne_badIndex _ _ (guard_sound a k g h12.1 hk)
      (guard_sound b k g h12.2 hk)
  | .or a b, k, g, hg, hk => by
    have h12 : guardOK a k = true ∧ guardOK b k = true := by
      simpa [guardOK, Bool.and_eq_true] using hg
    rw [show eval g (.or a b) = orSem (eval g a) (eval g b) from by simp [eval]]
    exact orSem_ne_badIndex _ _ (guard_sound a k g h12.1 hk)
      (guard_sound b k g h12.2 hk)
  | .and a b, k, g, hg, hk => by
    have h12 : guardOK a k = true ∧
        guardOK b (mergeK k (learn a)) = true := by
      simpa [guardOK, Bool.and_eq_true] using hg
    rw [show eval g (.and a b) = andSem (eval g a) (eval g b) from by
      simp [eval]]
    exact andSem_ne_badIndex _ _ (guard_sound a k g h12.1 hk)
      (fun ht => guard_sound b _ g h12.2 (sizeOK_merge k a g hk ht))
  | .cond bs, k, g, hg, hk => by
    rw [show eval g (.cond bs) = evalCond g bs from by simp [eval]]
    exact guard_sound_br bs k g (by simpa [guardOK] using hg) hk

theorem guard_sound_br : ∀ (bs : Branches) (k : Option Nat)
    (g : TransactionGroup),
    guardBr bs k = true → sizeOK k g → evalCond g bs ≠ .error .badIndex
  | .nil, _, g, _, _ => by simp [evalCond]
  | .cons d b rest, k, g, hg, hk => by
    have h123 : (guardOK d k = true ∧
        guardOK b (mergeK k (learn d)) = true) ∧ guardBr rest k = true := by
      simpa [guardBr, Bool.and_eq_true] using hg
    have hd := guard_sound d k g h123.1.1 hk
    simp only [evalCond]
    cases hdv : eval g d with
    | error e =>
      rw [hdv] at hd
      simpa using hd
    | ok v =>
      cases v with
      | bytes bb => simp
      | int n =>
        cases n with
        | zero =>
          simpa using guard_sound_br rest k g h123.2 hk
        | succ m =>
          have ht : isTruthy (eval g d) = true := by simp [hdv, isTruthy]
          simpa using guard_sound b _ g h123.1.2 (sizeOK_merge k d g hk ht)
end

/-! Concrete sample data for witnesses and counterexamples. -/

/-- A transaction with every field zeroed. -/
def baseTxn : Transaction :=
  { type_enum := 0, sender := zeroAddr, receiver := zeroAddr, amount := 0,
    fee := 0, first_valid := 0, last_valid := 0, lease := [],
    close_remainder_to := zeroAddr, rekey_to := zeroAddr,
    asset_close_to := zeroAddr, xfer_asset := 0, asset_amount := 0,
    application_id := 0, application_args := [] }

def addrA : Bytes := List.replicate 32 1

def addrB : Bytes := List.replicate 32 2

def addrTO : Bytes := List.replicate 32 3

def addrCLS : Bytes := List.replicate 32 4

def leaseB : Bytes := str2bytes "023sdDE2"

/-- A group of three all-zero transactions: no declared discriminant. -/
def g3 : TransactionGroup := { txns := [baseTxn, baseTxn, baseTxn], cur := 0 }

/-- C5: every branch body asserts its exact group size before any indexed
field read: both programs pass the syntactic `guardOK` check (every
`Gtxn[i]` access is dominated, in left-to-right evaluation order, by a
group-size assertion covering `i`), and consequently no evaluation of
either program, on any group, reaches an out-of-range indexed read. -/
theorem guarded_reads (gov app AMT FV LV : Nat) (CLS LEASE TO : Bytes) :
    guardOK (deposit_lsig gov app) none = true ∧
    guardOK (dynamic_fee AMT CLS FV LV LEASE TO) none = true ∧
    (∀ g, eval g (deposit_lsig gov app) ≠ .error .badIndex) ∧
    (∀ g, eval g (dynamic_fee AMT CLS FV LV LEASE TO) ≠ .error .badIndex) := by
  refine ⟨rfl, rfl, ?_, ?_⟩
  · exact fun g => guard_sound _ none g rfl (sizeOK_none g)
  · exact fun g => guard_sound _ none g rfl (sizeOK_none g)

/-- Witness for `guarded_reads` at the default parameters and a concrete
group. -/
theorem guarded_reads_witness :
    guardOK (deposit_lsig 99 98) none = true ∧
    eval g3 (deposit_lsig 99 98) ≠ .error .badIndex := by
  refine ⟨(guarded_reads 99 98 700000 10 1000000 addrCLS leaseB addrTO).1, ?_⟩
  exact (guarded_reads 99 98 700000 10 1000000 addrCLS leaseB addrTO).2.2.1 g3

/-- C7: the comparison primitives have unbounded integer semantics (the
result of `==` and `<=` on integers is the mathematical comparison, with
no wraparound for any values), and byte-string equality is exact
byte-for-byte comparison. -/
theorem unbounded_comparisons (g : TransactionGroup) (a b : Nat)
    (x y : Bytes) :
    accepts (.le (.int a) (.int b)) g = decide (a ≤ b) ∧
    accepts (.eq (.int a) (.int b)) g = decide (a = b) ∧
    accepts (.eq (.bytes x) (.bytes y)) g = decide (x = y) := by
  refine ⟨?_, ?_, ?_⟩ <;> simp [accepts, eval, leSem, eqSem, isTruthy_ite]

/-- C8: composition is deterministic — equal template parameter sets give
syntactically identical predicate trees, hence identical evaluation
results on every group (and identical emitted artifacts). -/
theorem composition_deterministic
    (gov app gov2 app2 AMT FV LV AMT2 FV2 LV2 : Nat)
    (CLS LEASE TO CLS2 LEASE2 TO2 : Bytes) :
    (gov = gov2 → app = app2 →
      deposit_lsig gov app = deposit_lsig gov2 app2 ∧
      ∀ g, eval g (deposit_lsig gov app) = eval g (deposit_lsig gov2 app2)) ∧
    (AMT = AMT2 → CLS = CLS2 → FV = FV2 → LV = LV2 → LEASE = LEASE2 →
      TO = TO2 →
      dynamic_fee AMT CLS FV LV LEASE TO =
        dynamic_fee AMT2 CLS2 FV2 LV2 LEASE2 TO2 ∧
      ∀ g, eval g (dynamic_fee AMT CLS FV LV LEASE TO) =
        eval g (dynamic_fee AMT2 CLS2 FV2 LV2 LEASE2 TO2)) := by
  constructor
  · rintro rfl rfl
    exact ⟨rfl, fun g => rfl⟩
  · rintro rfl rfl rfl rfl rfl rfl
    exact ⟨rfl, fun g => rfl⟩

/-- Witness for `composition_deterministic` at the default parameters. -/
theorem composition_deterministic_witness :
    deposit_lsig 99 98 = deposit_lsig 99 98 ∧
    dynamic_fee 700000 addrCLS 10 1000000 leaseB addrTO =
      dynamic_fee 700000 addrCLS 10 1000000 leaseB addrTO := by
  refine ⟨?_, ?_⟩
  · exact ((composition_deterministic 99 98 99 98 700000 10 1000000 700000 10
      1000000 addrCLS leaseB addrTO addrCLS leaseB addrTO).1 rfl rfl).1
  · exact ((composition_deterministic 99 98 99 98 700000 10 1000000 700000 10
      1000000 addrCLS leaseB addrTO addrCLS leaseB addrTO).2 rfl rfl rfl rfl
      rfl rfl).1

/-- C1: fail-closed dispatch. A `Cond` runs the body of the first truthy
discriminant, skips branches whose discriminant is false, and rejects when
no branch matches; consequently `deposit_lsig` rejects every group whose
size is neither 1 nor 2, and `dynamic_fee` rejects every group whose size
is not 2. -/
theorem fail_closed (gov app AMT FV LV : Nat) (CLS LEASE TO : Bytes)
    (g : TransactionGroup) :
    (g.txns.length ≠ 1 → g.txns.length ≠ 2 →
      accepts (deposit_lsig gov app) g = false) ∧
    (g.txns.length ≠ 2 →
      accepts (dynamic_fee AMT CLS FV LV LEASE TO) g = false) ∧
    (∀ d b rest n, eval g d = .ok (.int (n + 1)) →
      eval g (.cond (.cons d b rest)) = eval g b) ∧
    (∀ d b rest, eval g d = .ok (.int 0) →
      eval g (.cond (.cons d b rest)) = evalCond g rest) ∧
    evalCond g .nil = .error .noMatch := by
  refine ⟨?_, ?_, ?_, ?_, rfl⟩
  · intro h1 h2
    simp [accepts, deposit_lsig, eval, evalCond, eqSem, h1, h2, isTruthy]
  · intro h2
    have hreq : accepts required_condition g = false := by
      have hg : accepts grp_check g = false := by
        rw [show grp_check = Expr.eq .groupSize (.int 2) from rfl,
          accepts_eq_groupSize]
        simpa using h2
      simp only [required_condition, accepts_AndN, hg, Bool.false_and]
    simp only [dynamic_fee, accepts_and, hreq, Bool.false_and]
  · intro d b rest n h
    rw [show eval g (.cond (.cons d b rest)) = evalCond g (.cons d b rest)
      from by simp [eval]]
    simp [evalCond, h]
  · intro d b rest h
    rw [show eval g (.cond (.cons d b rest)) = evalCond g (.cons d b rest)
      from by simp [eval]]
    simp [evalCond, h]

/-- Witness for `fail_closed`: a size-3 group is rejected by both
programs. -/
theorem fail_closed_witness :
    accepts (deposit_lsig 99 98) g3 = false ∧
    accepts (dynamic_fee 700000 addrCLS 10 1000000 leaseB addrTO) g3
      = false := by
  refine ⟨?_, ?_⟩
  · exact (fail_closed 99 98 700000 10 1000000 addrCLS leaseB addrTO g3).1
      (by decide) (by decide)
  · exact (fail_closed 99 98 700000 10 1000000 addrCLS leaseB addrTO
      g3).2.1 (by decide)

/-- C9: the size-2 branch of `deposit_lsig` requires the currently
authorized transaction to sit at group index 1; every size-2 group whose
authorized transaction is at index 0 is rejected, whatever the two
transactions contain. -/
theorem group_index_one_required (gov app : Nat) (t0 t1 : Transaction) :
    accepts (deposit_lsig gov app) { txns := [t0, t1], cur := 0 } = false := by
  have h1 : accepts (deposit_lsig gov app) { txns := [t0, t1], cur := 0 } =
      accepts (deposit_or_withdraw gov app) { txns := [t0, t1], cur := 0 } := by
    simp [accepts, deposit_lsig, eval, evalCond, eqSem]
  rw [h1]
  simp only [deposit_or_withdraw, accepts_AndN]
  simp [List.all, accepts_eq_groupIndex]

/-! The opt-in branch (claim about singleton groups). -/

/-- Characterization of `deposit_lsig` on a singleton group: acceptance is
exactly the conjunction of the six field checks of `opt_in`. -/
theorem opt_in_accepts_iff (gov app : Nat) (t : Transaction) :
    accepts (deposit_lsig gov app) { txns := [t], cur := 0 } = true ↔
      t.rekey_to = zeroAddr ∧ t.close_remainder_to = zeroAddr ∧
      t.asset_close_to = zeroAddr ∧ t.type_enum = TxnTypeAssetTransfer ∧
      t.asset_amount = 0 ∧ t.xfer_asset = gov := by
  have hco : accepts (deposit_lsig gov app) { txns := [t], cur := 0 } =
      accepts (opt_in gov) { txns := [t], cur := 0 } := by
    simp [accepts, deposit_lsig, eval, evalCond, eqSem]
  rw [hco]
  simp only [opt_in, basic_checks, fieldE, accepts_AndN, List.all_cons,
    List.all_nil]
  simp [accepts, eval, eqSem, fieldVal, isTruthy_ite, Bool.and_eq_true,
    decide_eq_true_eq, and_assoc]

/-- C2: on a singleton group, `deposit_lsig` accepts iff the lone
transaction is an asset transfer of asset amount 0 for the configured
governance token with rekey-to, close-remainder-to and asset-close-to all
equal to the zero address; moving any one of those six fields away from
its accepted value makes the program reject. -/
theorem opt_in_branch (gov app : Nat) (t : Transaction) :
    (accepts (deposit_lsig gov app) { txns := [t], cur := 0 } = true ↔
      t.rekey_to = zeroAddr ∧ t.close_remainder_to = zeroAddr ∧
      t.asset_close_to = zeroAddr ∧ t.type_enum = TxnTypeAssetTransfer ∧
      t.asset_amount = 0 ∧ t.xfer_asset = gov) ∧
    (∀ v, v ≠ zeroAddr →
      accepts (deposit_lsig gov app)
        { txns := [{ t with rekey_to := v }], cur := 0 } = false) ∧
    (∀ v, v ≠ zeroAddr →
      accepts (deposit_lsig gov app)
        { txns := [{ t with close_remainder_to := v }], cur := 0 } = false) ∧
    (∀ v, v ≠ zeroAddr →
      accepts (deposit_lsig gov app)
        { txns := [{ t with asset_close_to := v }], cur := 0 } = false) ∧
    (∀ n, n ≠ TxnTypeAssetTransfer →
      accepts (deposit_lsig gov app)
        { txns := [{ t with type_enum := n }], cur := 0 } = false) ∧
    (∀ n, n ≠ 0 →
      accepts (deposit_lsig gov app)
        { txns := [{ t with asset_amount := n }], cur := 0 } = false) ∧
    (∀ n, n ≠ gov →
      accepts (deposit_lsig gov app)
        { txns := [{ t with xfer_asset := n }], cur := 0 } = false) := by
  refine ⟨opt_in_accepts_iff gov app t, ?_, ?_, ?_, ?_, ?_, ?_⟩
  · intro v hv
    cases h : accepts (deposit_lsig gov app)
        { txns := [{ t with rekey_to := v }], cur := 0 } with
    | false => rfl
    | true =>
      exact absurd ((opt_in_accepts_iff gov app _).mp h).1 (by simpa using hv)
  · intro v hv
    cases h : accepts (deposit_lsig gov app)
        { txns := [{ t with close_remainder_to := v }], cur := 0 } with
    | false => rfl
    | true =>
      exact absurd ((opt_in_accepts_iff gov app _).mp h).2.1
        (by simpa using hv)
  · intro v hv
    cases h : accepts (deposit_lsig gov app)
        { txns := [{ t with asset_close_to := v }], cur := 0 } with
    | false => rfl
    | true =>
      exact absurd ((opt_in_accepts_iff gov app _).mp h).2.2.1
        (by simpa using hv)
  · intro n hn
    cases h : accepts (deposit_lsig gov app)
        { txns := [{ t with type_enum := n }], cur := 0 } with
    | false => rfl
    | true =>
      exact absurd ((opt_in_accepts_iff gov app _).mp h).2.2.2.1
        (by simpa using hn)
  · intro n hn
    cases h : accepts (deposit_lsig gov app)
        { txns := [{ t with asset_amount := n }], cur := 0 } with
    | false => rfl
    | true =>
      exact absurd ((opt_in_accepts_iff gov app _).mp h).2.2.2.2.1
        (by simpa using hn)
  · intro n hn
    cases h : accepts (deposit_lsig gov app)
        { txns := [{ t with xfer_asset := n }], cur := 0 } with
    | false => rfl
    | true =>
      exact absurd ((opt_in_accepts_iff gov app _).mp h).2.2.2.2.2
        (by simpa using hn)

/-- A valid opt-in transaction for governance token 99. -/
def c2txn : Transaction :=
  { baseTxn with type_enum := TxnTypeAssetTransfer, xfer_asset := 99 }

/-- Witness for `opt_in_branch`: a concrete opt-in is accepted, and the
rekeyed variant of it is rejected. -/
theorem opt_in_branch_witness :
    accepts (deposit_lsig 99 98) { txns := [c2txn], cur := 0 } = true ∧
    accepts (deposit_lsig 99 98)
      { txns := [{ c2txn with rekey_to := addrA }], cur := 0 } = false := by
  refine ⟨(opt_in_branch 99 98 c2txn).1.mpr (by decide), ?_⟩
  exact (opt_in_branch 99 98 c2txn).2.1 addrA (by decide)

/-! The paired-fee branch of `dynamic_fee`. -/

/-- The acceptance conditions exactly as the claim words them (refinement
target): transaction 0 is a payment whose receiver is the sender of
transaction 1 and whose amount is the fee of transaction 1, which is a
payment whose template-bound literal fields — receiver, amount,
close-remainder-to, and fee at most the configured maximum — all match.
Note this list does not mention the rekey-to field. -/
def specC3 (ARG_AMT : Nat) (ARG_CLS TMPL_TO : Bytes)
    (t0 t1 : Transaction) : Prop :=
  t0.type_enum = TxnTypePayment ∧ t0.receiver = t1.sender ∧
  t0.amount = t1.fee ∧ t1.type_enum = TxnTypePayment ∧
  t1.receiver = TMPL_TO ∧ t1.amount = ARG_AMT ∧
  t1.close_remainder_to = ARG_CLS ∧ t1.fee ≤ 10000

instance (a : Nat) (c tm : Bytes) (t0 t1 : Transaction) :
    Decidable (specC3 a c tm t0 t1) := by
  unfold specC3
  infer_instance

/-- Characterization of `dynamic_fee` on a two-transaction group whose
authorized transaction sits at index 1, in evaluation order. -/
theorem dynamic_fee_accepts_iff (AMT FV LV : Nat) (CLS LEASE TO : Bytes)
    (t0 t1 : Transaction) :
    accepts (dynamic_fee AMT CLS FV LV LEASE TO)
        { txns := [t0, t1], cur := 1 } = true ↔
      t0.type_enum = TxnTypePayment ∧ t0.receiver = t1.sender ∧
      t0.amount = t1.fee ∧ t1.type_enum = TxnTypePayment ∧
      t1.rekey_to = zeroAddr ∧ t1.fee ≤ 10000 ∧ t1.receiver = TO ∧
      t1.close_remainder_to = CLS ∧ t1.amount = AMT := by
  simp only [dynamic_fee, accepts_and, required_condition, params_condition,
    common_fields, grp_check, firstTxn_pay_check, address_check,
    amount_check, secondTxn_pay_check, recv_field_check, cls_field_check,
    amount_field_check, accepts_AndN, List.all_cons, List.all_nil]
  simp [accepts, eval, eqSem, leSem, fieldVal, isTruthy_ite, isTruthy,
    Bool.and_eq_true, decide_eq_true_eq, and_assoc]

/-- C3 (amended): for a size-2 group authorized at index 1, `dynamic_fee`
accepts iff the conditions listed by the claim hold AND, additionally, the
rekey-to field of the authorized transaction is the zero address (the
`common_fields` check in the source, which the claim list omits); and from
any accepted group, raising the amount of transaction 1 by one unit flips the
result to false. -/
theorem paired_fee_branch (AMT FV LV : Nat) (CLS LEASE TO : Bytes)
    (t0 t1 : Transaction) :
    (accepts (dynamic_fee AMT CLS FV LV LEASE TO)
        { txns := [t0, t1], cur := 1 } = true ↔
      (specC3 AMT CLS TO t0 t1 ∧ t1.rekey_to = zeroAddr)) ∧
    (accepts (dynamic_fee AMT CLS FV LV LEASE TO)
        { txns := [t0, t1], cur := 1 } = true →
      accepts (dynamic_fee AMT CLS FV LV LEASE TO)
        { txns := [t0, { t1 with amount := t1.amount + 1 }], cur := 1 }
        = false) := by
  constructor
  · rw [dynamic_fee_accepts_iff]
    simp only [specC3]
    tauto
  · intro hacc
    have h1 := (dynamic_fee_accepts_iff AMT FV LV CLS LEASE TO t0 t1).mp hacc
    cases h : accepts (dynamic_fee AMT CLS FV LV LEASE TO)
        { txns := [t0, { t1 with amount := t1.amount + 1 }], cur := 1 } with
    | false => rfl
    | true =>
      have h2 := (dynamic_fee_accepts_iff AMT FV LV CLS LEASE TO t0
        { t1 with amount := t1.amount + 1 }).mp h
      have ha : t1.amount = AMT := h1.2.2.2.2.2.2.2.2
      have hb : t1.amount + 1 = AMT := by simpa using h2.2.2.2.2.2.2.2.2
      omega

/-- C3 counterexample transaction 0: pays the fee of transaction 1 to
the sender of transaction 1. -/
def c3t0 : Transaction :=
  { baseTxn with
    type_enum := TxnTypePayment, receiver := addrA, amount := 1000 }

/-- C3 counterexample transaction 1: satisfies every condition in the
condition list of the claim but rekeys to `addrB`. -/
def c3t1 : Transaction :=
  { baseTxn with
    type_enum := TxnTypePayment, sender := addrA, fee := 1000,
    receiver := addrTO, amount := 700000, close_remainder_to := addrCLS,
    rekey_to := addrB }

/-- Counterexample to C3 as stated: a size-2 group satisfying every
condition the claim lists (`specC3`) that `dynamic_fee` nevertheless
rejects, because transaction 1 rekeys — a check the if-and-only-if of the
claim omits. -/
theorem paired_fee_branch_counterexample :
    specC3 700000 addrCLS addrTO c3t0 c3t1 ∧
    accepts (dynamic_fee 700000 addrCLS 10 1000000 leaseB addrTO)
      { txns := [c3t0, c3t1], cur := 1 } = false := by
  refine ⟨by decide, by decide⟩

/-- Transaction 1 of the accepted dynamic-fee group (no rekeying). -/
def c3t1good : Transaction := { c3t1 with rekey_to := zeroAddr }

/-- Witness for `paired_fee_branch`: with ARG_AMT = 700000, a compliant
group is accepted, and the same group where the amount of transaction 1
is 700001 is rejected. -/
theorem paired_fee_branch_witness :
    accepts (dynamic_fee 700000 addrCLS 10 1000000 leaseB addrTO)
      { txns := [c3t0, c3t1good], cur := 1 } = true ∧
    accepts (dynamic_fee 700000 addrCLS 10 1000000 leaseB addrTO)
      { txns := [c3t0, { c3t1good with amount := c3t1good.amount + 1 }],
        cur := 1 } = false := by
  constructor
  · exact (paired_fee_branch 700000 10 1000000 addrCLS leaseB addrTO c3t0
      c3t1good).1.mpr (by decide)
  · exact (paired_fee_branch 700000 10 1000000 addrCLS leaseB addrTO c3t0
      c3t1good).2 ((paired_fee_branch 700000 10 1000000 addrCLS leaseB
      addrTO c3t0 c3t1good).1.mpr (by decide))

/-! Template-bound fields of transaction 1 in `dynamic_fee` (C4), the
hard-coded fee ceiling (C10), and the concrete deposit scenario (C6). -/

/-- C4 (amended): every group accepted by `dynamic_fee` has the
receiver, amount and close-remainder-to of transaction 1 equal to the template
parameters; the first-valid/last-valid rounds and the lease are NOT bound,
because the source comments those three checks out of `params_condition`. -/
theorem template_bound_fields (AMT FV LV : Nat) (CLS LEASE TO : Bytes)
    (g : TransactionGroup) (t1 : Transaction)
    (h1 : g.txns[1]? = some t1)
    (hacc : accepts (dynamic_fee AMT CLS FV LV LEASE TO) g = true) :
    t1.receiver = TO ∧ t1.amount = AMT ∧ t1.close_remainder_to = CLS := by
  rw [show dynamic_fee AMT CLS FV LV LEASE TO =
    Expr.and required_condition (params_condition AMT CLS TO) from rfl,
    accepts_and, Bool.and_eq_true] at hacc
  have hp := hacc.2
  rw [show params_condition AMT CLS TO = AndN common_fields
    [recv_field_check TO, cls_field_check CLS, amount_field_check AMT]
    from rfl, accepts_AndN, Bool.and_eq_true] at hp
  have hl := hp.2
  simp only [List.all_cons, List.all_nil, Bool.and_eq_true, Bool.and_true]
    at hl
  refine ⟨?_, ?_, ?_⟩
  · have h := hl.1
    rw [show recv_field_check TO = Expr.eq (.gtxn 1 .receiver) (.bytes TO)
      from rfl] at h
    simpa [accepts, eval, h1, eqSem, fieldVal, isTruthy_ite] using h
  · have h := hl.2.2
    rw [show amount_field_check AMT = Expr.eq (.gtxn 1 .amount) (.int AMT)
      from rfl] at h
    simpa [accepts, eval, h1, eqSem, fieldVal, isTruthy_ite] using h
  · have h := hl.2.1
    rw [show cls_field_check CLS =
      Expr.eq (.gtxn 1 .closeRemainderTo) (.bytes CLS) from rfl] at h
    simpa [accepts, eval, h1, eqSem, fieldVal, isTruthy_ite] using h

/-- Transaction 1 of an accepted dynamic-fee group whose first-valid,
last-valid and lease all differ from the template parameters. -/
def c4t1 : Transaction :=
  { c3t1good with
    first_valid := 11, last_valid := 5, lease := str2bytes "not-the-lease" }

/-- Counterexample to C4 as stated: with template parameters
ARG_FV = 10, ARG_LV = 1000000, ARG_LEASE = `leaseB`, this group is
accepted although the first-valid, last-valid and lease of transaction 1
all differ from those parameters — the valid-round window and the lease are
not fixed by the predicate. -/
theorem template_bound_fields_counterexample :
    accepts (dynamic_fee 700000 addrCLS 10 1000000 leaseB addrTO)
      { txns := [c3t0, c4t1], cur := 1 } = true ∧
    ({ txns := [c3t0, c4t1], cur := 1 } : TransactionGroup).txns[1]?
      = some c4t1 ∧
    c4t1.first_valid ≠ 10 ∧ c4t1.last_valid ≠ 1000000 ∧
    c4t1.lease ≠ leaseB := by
  refine ⟨by decide, rfl, by decide, by decide, by decide⟩

/-- Witness for `template_bound_fields` at a concrete accepted group. -/
theorem template_bound_fields_witness :
    c4t1.receiver = addrTO ∧ c4t1.amount = 700000 ∧
    c4t1.close_remainder_to = addrCLS :=
  template_bound_fields 700000 10 1000000 addrCLS leaseB addrTO
    { txns := [c3t0, c4t1], cur := 1 } c4t1 rfl (by decide)

/-- C10: acceptance by `dynamic_fee` forces the currently authorized
transaction to have fee at most 10000 and rekey-to equal to the zero
address; the bound holds for every template parameter assignment, because
10000 is a literal in `common_fields`, not a template parameter. -/
theorem hard_coded_fee_ceiling (AMT FV LV : Nat) (CLS LEASE TO : Bytes)
    (g : TransactionGroup) (tc : Transaction)
    (hc : g.txns[g.cur]? = some tc)
    (hacc : accepts (dynamic_fee AMT CLS FV LV LEASE TO) g = true) :
    tc.fee ≤ 10000 ∧ tc.rekey_to = zeroAddr := by
  rw [show dynamic_fee AMT CLS FV LV LEASE TO =
    Expr.and required_condition (params_condition AMT CLS TO) from rfl,
    accepts_and, Bool.and_eq_true] at hacc
  have hp := hacc.2
  rw [show params_condition AMT CLS TO = AndN common_fields
    [recv_field_check TO, cls_field_check CLS, amount_field_check AMT]
    from rfl, accepts_AndN, Bool.and_eq_true] at hp
  have hcf := hp.1
  rw [show common_fields = AndN (.eq (.txn .rekeyTo) .zeroAddress)
    [.le (.txn .fee) (.int 10000)] from rfl, accepts_AndN,
    Bool.and_eq_true] at hcf
  constructor
  · have h := hcf.2
    simp only [List.all_cons, List.all_nil, Bool.and_true] at h
    simpa [accepts, eval, hc, leSem, fieldVal, isTruthy_ite] using h
  · have h := hcf.1
    simpa [accepts, eval, hc, eqSem, fieldVal, isTruthy_ite] using h

/-- Witness for `hard_coded_fee_ceiling` at a concrete accepted group. -/
theorem hard_coded_fee_ceiling_witness :
    c3t1good.fee ≤ 10000 ∧ c3t1good.rekey_to = zeroAddr :=
  hard_coded_fee_ceiling 700000 10 1000000 addrCLS leaseB addrTO
    { txns := [c3t0, c3t1good], cur := 1 } c3t1good rfl (by decide)

/-- Transaction 0 of the C6 scenario: an application call to app 98 with
first argument "deposit_vote_token". -/
def c6t0 : Transaction :=
  { baseTxn with
    type_enum := TxnTypeApplicationCall, application_id := 98,
    application_args := [str2bytes "deposit_vote_token"] }

/-- Transaction 1 of the C6 scenario: an asset transfer of asset 99 with
nonzero amount. -/
def c6t1 : Transaction :=
  { baseTxn with
    type_enum := TxnTypeAssetTransfer, xfer_asset := 99, asset_amount := 5,
    sender := addrA, receiver := addrB }

/-- C6: with the default parameters (asset id 99, app id 98), the size-2
group pairing a "deposit_vote_token" application call to app 98 with an
asset transfer of asset 99 is accepted, and the same group transferring
asset 100 instead is rejected. -/
theorem deposit_scenario :
    accepts (deposit_lsig 99 98) { txns := [c6t0, c6t1], cur := 1 } = true ∧
    accepts (deposit_lsig 99 98)
      { txns := [c6t0, { c6t1 with xfer_asset := 100 }], cur := 1 }
      = false := by
  refine ⟨by decide, by decide⟩

end AlgoBuilder
